import Mathlib

/-!
Verification of the multi-chain deployment coordinator
(`scripts/multi_chain_deployer.py`) against its natural-language
specification.

The Python code is shallow-embedded below: Python dicts become
association lists (`List (Str × _)`) or records with `Option` fields for
keys that may be absent, Python strings become `List Char`, raised
exceptions become `Except PyExn _`, and the external collaborators
(`subprocess.run` for the deploy and verify commands, user input for the
sequential continuation prompt, real completion timing of the thread
pool) become explicit oracle parameters.
-/

namespace MCD

open scoped List

/-- Python strings are modelled as lists of characters. -/
abbrev Str := List Char

/-- Coerce a Lean string literal into the model's string type. -/
def ofStr (s : String) : Str := s.toList

/-- The single-quote character, used by Python's `str` on a `KeyError`. -/
def sq : Char := Char.ofNat 39

/-- Python exceptions that the deployer's code paths can raise. -/
inductive PyExn where
  | keyError (k : Str)
  | valueError (msg : Str)
  | zeroDivisionError
  | typeError (msg : Str)
  | timeoutExpired
  | other (msg : Str)
deriving DecidableEq

instance {ε α : Type} [DecidableEq ε] [DecidableEq α] : DecidableEq (Except ε α) :=
  fun x y =>
    match x, y with
    | .ok a, .ok b =>
      if h : a = b then .isTrue (h ▸ rfl)
      else .isFalse (fun he => h (Except.ok.inj he))
    | .error a, .error b =>
      if h : a = b then .isTrue (h ▸ rfl)
      else .isFalse (fun he => h (Except.error.inj he))
    | .ok _, .error _ => .isFalse (fun he => Except.noConfusion he)
    | .error _, .ok _ => .isFalse (fun he => Except.noConfusion he)

/-- Python's `str(e)` for the exceptions above (a `KeyError` renders as
the quoted key, which is what `str(e)` produces at line 243 of the
source). -/
def pyStrOfExn : PyExn → Str
  | .keyError k => sq :: k ++ [sq]
  | .valueError m => m
  | .zeroDivisionError => ofStr "division by zero"
  | .typeError m => m
  | .timeoutExpired => ofStr "timed out"
  | .other m => m

/-- Lookup in an insertion-ordered Python dict (association list). -/
def dlookup {V : Type} : List (Str × V) → Str → Option V
  | [], _ => none
  | (k2, v) :: rest, k => if k2 = k then some v else dlookup rest k

/-- `d[k] = v` on an insertion-ordered Python dict: replaces in place if
the key exists, otherwise appends. -/
def dinsert {V : Type} : List (Str × V) → Str → V → List (Str × V)
  | [], k, v => [(k, v)]
  | (k2, v2) :: rest, k, v =>
    if k2 = k then (k, v) :: rest else (k2, v2) :: dinsert rest k v

/-- Per-network override dict created at lines 139-146 of the source.
Fields are `Option`s because a loaded configuration may omit keys that
the code reads with `.get(key, default)`. -/
structure NetworkSettings where
  enabled : Option Bool := some true
  priority : Option Int := some 1
  customGasPrice : Option Nat := none
  customTimeout : Option Nat := some 300000
  skipVerification : Option Bool := some false
  dependencies : List Str := []
deriving DecidableEq

/-- The `config["deployment"]` dict (lines 125-133).  The `networks`
field models the *optional* `"networks"` key under `"deployment"`:
`create_deployment_config` never writes it, yet `deploy_to_network`
reads `config["deployment"]["networks"][network]` (line 183), so for
built configurations that access raises `KeyError("networks")`. -/
structure DeploymentSection where
  contract : Str
  constructorArgs : List Str
  timestamp : Str
  strategy : Str
  retryAttempts : Nat := 3
  retryDelay : Nat := 5000
  verificationEnabled : Bool := true
  networks : Option (List (Str × NetworkSettings)) := none
deriving DecidableEq

/-- A deployment configuration: the `"deployment"` section plus the
top-level `"networks"` dict (line 134). -/
structure Config where
  deployment : DeploymentSection
  networks : List (Str × NetworkSettings)
deriving DecidableEq

/-- The keys of `self.network_configs` (lines 38-120), i.e. the target
registry.  Only membership is consulted by the code paths under
verification; the per-network values (chain ids, RPC endpoints, ...) are
never read by them. -/
def networkConfigKeys : List Str :=
  [ofStr "ethereum", ofStr "polygon", ofStr "arbitrum", ofStr "optimism",
   ofStr "bsc", ofStr "avalanche", ofStr "goerli", ofStr "sepolia",
   ofStr "mumbai"]

/-- Outcome dict of `verify_contract` (lines 283-323); that function
catches all of its own exceptions, so it is total. -/
structure VerifyInfo where
  success : Bool
  message : Option Str := none
  error : Option Str := none
  output : Option Str := none
deriving DecidableEq

/-- The `deployment_info` dict produced by `parse_deployment_output`
and enriched by `deploy_to_network` (keys are added dynamically, hence
every field is optional). -/
structure DeploymentInfo where
  contractAddress : Option Str := none
  transactionHash : Option Str := none
  gasUsed : Option Nat := none
  network : Option Str := none
  timestamp : Option Str := none
  verification : Option VerifyInfo := none
deriving DecidableEq

/-- The per-network result dict returned by `deploy_to_network`
(lines 220-248). -/
structure PyResult where
  success : Bool
  network : Str
  deployment : Option DeploymentInfo := none
  error : Option Str := none
  output : Option Str := none
deriving DecidableEq

/-- One entry of `report["networks"]` (lines 482-490). -/
structure NetworkReportEntry where
  success : Bool
  contractAddress : Option Str
  transactionHash : Option Str
  gasUsed : Option Nat
  verification : Option VerifyInfo
  error : Option Str
  output : Str
deriving DecidableEq

/-- JSON-ish values stored in the report's `summary` dict.  The summary
is kept as an association list because the renderers look keys up by
name — and the builder and the renderers disagree on one of the names. -/
inductive JVal where
  | nat (n : Nat)
  | str (s : Str)
deriving DecidableEq

/-- The report dict built at lines 468-479. -/
structure Report where
  summary : List (Str × JVal)
  networks : List (Str × NetworkReportEntry)
  config : Config
deriving DecidableEq

/-! ### Output parsing (`parse_deployment_output`, lines 250-281) -/

/-- Python's `str.split(chr 10)`. -/
def splitNl : Str → List Str
  | [] => [[]]
  | c :: rest =>
    let r := splitNl rest
    if c = Char.ofNat 10 then [] :: r
    else
      match r with
      | [] => [[c]]
      | h :: t => (c :: h) :: t

/-- `hasPre pat s` holds when `pat` is an initial segment of `s`. -/
def hasPre : Str → Str → Bool
  | [], _ => true
  | _ :: _, [] => false
  | p :: ps, c :: cs => p = c && hasPre ps cs

/-- Python's `pat in s` substring test. -/
def containsSub (pat : Str) : Str → Bool
  | [] => pat.isEmpty
  | c :: cs => hasPre pat (c :: cs) || containsSub pat cs

/-- A hexadecimal digit, as matched by the regex class used at
lines 258/264 of the source. -/
def isHexDigitCh (c : Char) : Bool :=
  (decide (Char.ofNat 48 ≤ c) && decide (c ≤ Char.ofNat 57)) ||
  (decide (Char.ofNat 97 ≤ c) && decide (c ≤ Char.ofNat 102)) ||
  (decide (Char.ofNat 65 ≤ c) && decide (c ≤ Char.ofNat 70))

/-- Fuel-indexed scanner behind `findTok`; the fuel only bounds the
number of scan positions and is instantiated with the string length. -/
def findTokAux (n : Nat) : Nat → Str → List Str
  | 0, _ => []
  | _, [] => []
  | fuel + 1, c :: rest =>
    if c = Char.ofNat 48 && hasPre [Char.ofNat 120] rest
        && ((rest.drop 1).take n).length == n
        && ((rest.drop 1).take n).all isHexDigitCh then
      (Char.ofNat 48 :: Char.ofNat 120 :: (rest.drop 1).take n) ::
        findTokAux n fuel ((rest.drop 1).drop n)
    else
      findTokAux n fuel rest

/-- `re.findall` for the pattern `0x` followed by exactly `n` hex
digits: a left-to-right, non-overlapping scan. -/
def findTok (n : Nat) (s : Str) : List Str := findTokAux n s.length s

/-- Decimal digits at the head of a string. -/
def takeDigits (s : Str) : Str :=
  s.takeWhile (fun c => decide (Char.ofNat 48 ≤ c) && decide (c ≤ Char.ofNat 57))

/-- Value of a string of decimal digits. -/
def digitsVal : Str → Nat → Nat
  | [], acc => acc
  | c :: cs, acc => digitsVal cs (acc * 10 + (c.toNat - 48))

/-- Python's whitespace class for the regex at line 270. -/
def isPySpace (c : Char) : Bool :=
  c = Char.ofNat 32 || c = Char.ofNat 9 || c = Char.ofNat 10 ||
  c = Char.ofNat 13 || c = Char.ofNat 11 || c = Char.ofNat 12

/-- Fuel-indexed scanner behind `gasSearch`. -/
def gasSearchAux : Nat → Str → Option Nat
  | 0, _ => none
  | _, [] => none
  | fuel + 1, c :: rest =>
    if hasPre (ofStr "Gas used:") (c :: rest) then
      let after := ((c :: rest).drop 9).dropWhile isPySpace
      let ds := takeDigits after
      if ds.isEmpty then gasSearchAux fuel rest else some (digitsVal ds 0)
    else
      gasSearchAux fuel rest

/-- `re.search` over the string for `Gas used:` followed by optional
whitespace and at least one digit; returns the digits' value. -/
def gasSearch (s : Str) : Option Nat := gasSearchAux (s.length + 1) s

/-- The test of line 256: the line carries one of the two deployment
markers. -/
def markerB (line : Str) : Bool :=
  containsSub (ofStr "Contract address:") line ||
    containsSub (ofStr "deployed to:") line

/-- The if/elif chain of `parse_deployment_output` applied to a single
line (lines 255-272): a marker line takes the *first* 40-hex-digit token
on that line, a transaction-hash line the first 64-hex-digit token, a
gas line its parsed number; any other line leaves the dict unchanged. -/
def parseLine (info : DeploymentInfo) (line : Str) : DeploymentInfo :=
  if markerB line then
    match findTok 40 line with
    | [] => info
    | a :: _ => { info with contractAddress := some a }
  else if containsSub (ofStr "Transaction hash:") line then
    match findTok 64 line with
    | [] => info
    | t :: _ => { info with transactionHash := some t }
  else if containsSub (ofStr "Gas used:") line then
    match gasSearch line with
    | none => info
    | some g => { info with gasUsed := some g }
  else info

/-- `parse_deployment_output(output, network)` (lines 250-281): fold the
per-line chain over the output's lines; if no marker line recorded a
contract address, fall back to the *last* 40-hex-digit token of the
whole output.  (The `network` argument is accepted and ignored, exactly
as in the source.) -/
def parse_deployment_output (output : Str) (_network : Str) : DeploymentInfo :=
  let info := (splitNl output).foldl parseLine {}
  match info.contractAddress with
  | some _ => info
  | none =>
    match (findTok 40 output).getLast? with
    | some a => { info with contractAddress := some a }
    | none => info

/-! ### Executor (`deploy_to_network`, lines 177-248, and
`verify_contract`, lines 283-323) -/

/-- Outcome of one `subprocess.run` invocation, as seen by the caller:
it completed with an exit status and captured streams, it exceeded the
timeout (`subprocess.TimeoutExpired`), or it raised some other
exception (e.g. `FileNotFoundError`). -/
inductive CollabOutcome where
  | completed (returncode : Int) (stdout stderr : Str)
  | timedOut
  | raised (e : PyExn)
deriving DecidableEq

/-- `verify_contract(network, deployment_info)`: returns a failure dict
when no contract address was parsed; otherwise maps the verification
subprocess outcome, catching timeouts and exceptions itself
(lines 283-323).  The function is total: it never raises. -/
def verify_contract (deployment_info : DeploymentInfo)
    (collab : CollabOutcome) : VerifyInfo :=
  match deployment_info.contractAddress with
  | none => { success := false, error := some (ofStr "No contract address found") }
  | some _ =>
    match collab with
    | .completed rc out err =>
      if rc = 0 then
        { success := true,
          message := some (ofStr "Contract verified successfully"),
          output := some out }
      else
        { success := false, error := some err, output := some out }
    | .timedOut => { success := false, error := some (ofStr "Verification timed out") }
    | .raised e => { success := false, error := some (pyStrOfExn e) }

/-- The `try:` body of `deploy_to_network` (lines 181-233), with the
statements that can raise made explicit in `Except`:
the registry lookup `self.network_configs[network]` (line 182), the
settings lookup `config["deployment"]["networks"][network]` (line 183,
which raises `KeyError("networks")` on every configuration built by
`create_deployment_config`, since that function stores the per-network
dict under the top-level `"networks"` key instead), and the
`subprocess.run` call (lines 199-206) whose outcome — including
`TimeoutExpired` and arbitrary exceptions — is the `collab` oracle.
Command construction and the environment copy (lines 186-195) have no
observable effect on the returned record and are not modelled. -/
def deployBody (network : Str) (config : Config) (collab : CollabOutcome)
    (vcollab : CollabOutcome) (now : Str) : Except PyExn PyResult :=
  if ¬ network ∈ networkConfigKeys then .error (.keyError network)
  else
    match config.deployment.networks with
    | none => .error (.keyError (ofStr "networks"))
    | some dn =>
      match dlookup dn network with
      | none => .error (.keyError network)
      | some settings =>
        match collab with
        | .timedOut => .error .timeoutExpired
        | .raised e => .error e
        | .completed rc stdout stderr =>
          if rc = 0 then
            let info := parse_deployment_output stdout network
            let info := { info with network := some network, timestamp := some now }
            let info :=
              if config.deployment.verificationEnabled &&
                  !(settings.skipVerification.getD false) then
                { info with verification := some (verify_contract info vcollab) }
              else info
            .ok { success := true, network := network,
                  deployment := some info, output := some stdout }
          else
            .ok { success := false, network := network,
                  error := some stderr, output := some stdout }

/-- `deploy_to_network(network, config)` with its `except` clauses
(lines 235-248): a `TimeoutExpired` becomes a failure record with error
`"Deployment timed out"`, any other exception a failure record carrying
`str(e)`.  The function is total — no exception escapes it. -/
def deploy_to_network (network : Str) (config : Config) (collab : CollabOutcome)
    (vcollab : CollabOutcome) (now : Str) : PyResult :=
  match deployBody network config collab vcollab now with
  | .ok r => r
  | .error .timeoutExpired =>
    { success := false, network := network,
      error := some (ofStr "Deployment timed out") }
  | .error e =>
    { success := false, network := network, error := some (pyStrOfExn e) }

/-! ### Coordination engine (lines 325-461) -/

/-- `settings.get("enabled", True)` (line 328). -/
def effEnabled (s : NetworkSettings) : Bool := s.enabled.getD true

/-- The enabled target list of `execute_deployment` (line 328), in the
configuration's insertion order. -/
def enabledNetworks (config : Config) : List Str :=
  (config.networks.filter (fun p => effEnabled p.2)).map Prod.fst

/-- The sort key `config["networks"][n].get("priority", 1)`
(lines 400-403).  In the engine's flow `n` is always a key of
`config.networks`; the `none` fallback mirrors the default priority. -/
def effPriority (config : Config) (n : Str) : Int :=
  match dlookup config.networks n with
  | some s => s.priority.getD 1
  | none => 1

/-- Comparison by effective priority. -/
def priorityLe (config : Config) (a b : Str) : Prop :=
  effPriority config a ≤ effPriority config b

instance (config : Config) : DecidableRel (priorityLe config) :=
  fun x y => Int.decLe (effPriority config x) (effPriority config y)

instance (config : Config) : IsTotal Str (priorityLe config) :=
  ⟨fun x y => Int.le_total (effPriority config x) (effPriority config y)⟩

instance (config : Config) : IsTrans Str (priorityLe config) :=
  ⟨fun _ _ _ hxy hyz => Int.le_trans hxy hyz⟩

/-- Python's `sorted(networks, key=priority)` (lines 400-403): a stable
sort by ascending priority.  A stable sort with respect to a total
preorder key is unique, so the structural insertion sort here computes
the same list as CPython's timsort. -/
def sortByPriority (config : Config) (networks : List Str) : List Str :=
  List.insertionSort (priorityLe config) networks

/-- Per-network attempt oracle: what `deploy_to_network` returns for
each target (the function is total, see `deploy_to_network`). -/
abbrev Attempt := Str → PyResult

/-- The sequential loop (lines 405-425): deploy in sorted order;
after a *failed* attempt that is not the last, consult the continuation
prompt (line 418) and break unless it answers `y`.  No prompt follows a
failure of the final target, and none follows a success. -/
def seqLoop (attempt : Attempt) (decision : Str → Bool) : List Str → List (Str × PyResult)
  | [] => []
  | n :: rest =>
    if rest.isEmpty then [(n, attempt n)]
    else if (attempt n).success then (n, attempt n) :: seqLoop attempt decision rest
    else if decision n then (n, attempt n) :: seqLoop attempt decision rest
    else [(n, attempt n)]

/-- `deploy_sequential(networks, config)` (lines 391-430): sort by
priority, then run the loop; the returned association list is the
`results` dict in insertion order. -/
def deploy_sequential (networks : List Str) (config : Config)
    (attempt : Attempt) (decision : Str → Bool) : List (Str × PyResult) :=
  seqLoop attempt decision (sortByPriority config networks)

/-- `deploy_simultaneous(networks, config)` (lines 351-389): all targets
are submitted to the pool, and `results[network] = result` happens in
the order `as_completed` yields the futures — the completion order,
which is an oracle here (a permutation of `networks`).  The
`except` branch around `future.result()` (lines 378-384) is unreachable
because the submitted callable is total. -/
def deploy_simultaneous (networks completionOrder : List Str)
    (attempt : Attempt) : List (Str × PyResult) :=
  let _ := networks
  completionOrder.map (fun n => (n, attempt n))

/-- `deploy_simultaneous` including the pool construction at line 359:
`ThreadPoolExecutor(max_workers=min(len(networks), 5))` raises
`ValueError` when the target list is empty. -/
def deploy_simultaneousE (networks completionOrder : List Str)
    (attempt : Attempt) : Except PyExn (List (Str × PyResult)) :=
  if networks.isEmpty then
    .error (.valueError (ofStr "max_workers must be greater than 0"))
  else .ok (deploy_simultaneous networks completionOrder attempt)

/-- Phase-1 targets of `deploy_coordinated` (line 441): exactly those
with priority equal to 1. -/
def coordBucket1 (networks : List Str) (config : Config) : List Str :=
  networks.filter (fun n => decide (effPriority config n = 1))

/-- Phase-3 targets of `deploy_coordinated` (line 452): everything not
in phase 1, whatever its priority. -/
def coordRemaining (networks : List Str) (config : Config) : List Str :=
  networks.filter (fun n => !(decide (n ∈ coordBucket1 networks config)))

/-- `deploy_coordinated(networks, config)` (lines 432-461): run the
priority-1 bucket simultaneously, wait a fixed delay, then run all
remaining targets simultaneously; each phase is skipped when its bucket
is empty (lines 442, 453).  `ord1`/`ord2` are the completion-order
oracles of the two simultaneous phases. -/
def deploy_coordinated (networks : List Str) (config : Config)
    (ord1 ord2 : List Str) (attempt : Attempt) : List (Str × PyResult) :=
  let b1 := coordBucket1 networks config
  let rem := coordRemaining networks config
  (if b1.isEmpty then [] else deploy_simultaneous b1 ord1 attempt)
    ++ (if rem.isEmpty then [] else deploy_simultaneous rem ord2 attempt)

/-! ### Dispatch/terminal event traces

`deploy_simultaneous` submits every target to the pool (dispatch) before
collecting any completion (terminal); `deploy_coordinated` runs one
whole simultaneous phase before starting the next, so the second phase's
dispatches follow all first-phase terminals. -/

/-- A scheduling event: a target is handed to the pool, or its attempt
reaches a terminal status. -/
inductive Ev where
  | dispatch (n : Str)
  | terminal (n : Str)
deriving DecidableEq

/-- Event trace of one simultaneous phase: all submissions (in list
order, lines 361-364), then the terminals in completion order
(lines 367-384). -/
def simTrace (networks completionOrder : List Str) : List Ev :=
  networks.map Ev.dispatch ++ completionOrder.map Ev.terminal

/-- Event trace of a coordinated run: the phase-1 trace followed by the
phase-3 trace (the barrier at line 449 sits between them). -/
def coordTrace (networks : List Str) (config : Config)
    (ord1 ord2 : List Str) : List Ev :=
  let b1 := coordBucket1 networks config
  let rem := coordRemaining networks config
  (if b1.isEmpty then [] else simTrace b1 ord1)
    ++ (if rem.isEmpty then [] else simTrace rem ord2)

/-- Index of the first occurrence of an event in a trace (length of the
trace when absent). -/
def firstIdx (e : Ev) : List Ev → Nat
  | [] => 0
  | x :: xs => if x = e then 0 else firstIdx e xs + 1

/-- `e1` happens before `e2` in the trace: both occur and the first
occurrence of `e1` precedes the first occurrence of `e2`. -/
def BeforeIn (e1 e2 : Ev) (tr : List Ev) : Prop :=
  e1 ∈ tr ∧ e2 ∈ tr ∧ firstIdx e1 tr < firstIdx e2 tr

instance (e1 e2 : Ev) (tr : List Ev) : Decidable (BeforeIn e1 e2 tr) := by
  unfold BeforeIn; infer_instance

/-! ### Result aggregation (`generate_deployment_report`, lines 463-509,
and the renderers, lines 511-583) -/

/-- One entry of `report["networks"]` (lines 482-490); in particular the
stored output is `result.get("output", "")[:1000]`. -/
def buildEntry (r : PyResult) : NetworkReportEntry :=
  { success := r.success
    contractAddress := if r.success then r.deployment.bind (·.contractAddress) else none
    transactionHash := if r.success then r.deployment.bind (·.transactionHash) else none
    gasUsed := if r.success then r.deployment.bind (·.gasUsed) else none
    verification := if r.success then r.deployment.bind (·.verification) else none
    error := if r.success then none else r.error
    output := (r.output.getD []).take 1000 }

/-- The `report["summary"]` dict (lines 469-476).  Note the strategy is
stored under the key `"deploymentStrategy"`. -/
def buildSummary (results : List (Str × PyResult)) (config : Config)
    (now : Str) : List (Str × JVal) :=
  [(ofStr "totalNetworks", .nat results.length),
   (ofStr "successfulDeployments", .nat (results.filter (fun p => p.2.success)).length),
   (ofStr "failedDeployments", .nat (results.filter (fun p => !p.2.success)).length),
   (ofStr "deploymentStrategy", .str config.deployment.strategy),
   (ofStr "contract", .str config.deployment.contract),
   (ofStr "timestamp", .str now)]

/-- The report dict assembled at lines 468-490 — the object serialized
to the JSON report file at lines 493-494.  `now` is
`datetime.now().isoformat()`. -/
def buildReport (results : List (Str × PyResult)) (config : Config)
    (now : Str) : Report :=
  { summary := buildSummary results config now
    networks := results.map (fun p => (p.1, buildEntry p.2))
    config := config }

/-- Python dict indexing on the summary: `summary[k]`. -/
def dgetJ (d : List (Str × JVal)) (k : Str) : Except PyExn JVal :=
  match dlookup d k with
  | some v => .ok v
  | none => .error (.keyError k)

/-- Render a summary value inside an f-string. -/
def renderJ : JVal → Str
  | .nat n => ofStr (toString n)
  | .str s => s

/-- A summary value used as an arithmetic operand must be a number. -/
def asNat : JVal → Except PyExn Nat
  | .nat n => .ok n
  | .str _ => .error (.typeError (ofStr "unsupported operand type for division"))

/-- Python's true division `a / b` (line 565): raises
`ZeroDivisionError` when `b = 0`. -/
def pyDiv (a b : Nat) : Except PyExn ℚ :=
  if b = 0 then .error .zeroDivisionError else .ok ((a : ℚ) / (b : ℚ))

/-- `x or "N/A"` on an optional string (lines 534-535): `None` and the
empty string are falsy. -/
def pyOrNA (x : Option Str) : Str :=
  match x with
  | none => ofStr "N/A"
  | some s => if s.isEmpty then ofStr "N/A" else s

/-- An optional string interpolated into an f-string (`None` renders as
the text `None`). -/
def renderOptStr : Option Str → Str
  | none => ofStr "None"
  | some s => s

/-- One row of the markdown results table (lines 532-543). -/
def mdRow (network : Str) (e : NetworkReportEntry) : Str :=
  let status := if e.success then ofStr "Success" else ofStr "Failed"
  let gas := match e.gasUsed with
    | some g => if g = 0 then ofStr "N/A" else ofStr (toString g)
    | none => ofStr "N/A"
  let verif := match e.verification with
    | some v => if e.success then (if v.success then ofStr "Verified" else ofStr "Failed")
                else ofStr "N/A"
    | none => ofStr "N/A"
  ofStr "| " ++ network ++ ofStr " | " ++ status ++ ofStr " | " ++
    pyOrNA e.contractAddress ++ ofStr " | " ++ pyOrNA e.transactionHash ++
    ofStr " | " ++ gas ++ ofStr " | " ++ verif ++ ofStr " |"

/-- `generate_markdown_report(report)` (lines 511-554).  The header
f-string reads `summary['contract']` and then `summary['strategy']`
(lines 519-520) — but the builder stored the strategy under
`"deploymentStrategy"`, so the second lookup raises `KeyError` on every
report this program builds. -/
def generate_markdown_reportE (report : Report) : Except PyExn Str := do
  let s := report.summary
  let contract ← dgetJ s (ofStr "contract")
  let strategy ← dgetJ s (ofStr "strategy")
  let total ← dgetJ s (ofStr "totalNetworks")
  let succ ← dgetJ s (ofStr "successfulDeployments")
  let failed ← dgetJ s (ofStr "failedDeployments")
  let ts ← dgetJ s (ofStr "timestamp")
  let header :=
    ofStr "# Multi-Chain Deployment Report " ++ renderJ contract ++
    ofStr " " ++ renderJ strategy ++ ofStr " " ++ renderJ total ++
    ofStr " " ++ renderJ succ ++ ofStr " " ++ renderJ failed ++
    ofStr " " ++ renderJ ts
  let rows := report.networks.foldl (fun acc p => acc ++ mdRow p.1 p.2) []
  let failedPart :=
    (report.networks.filter (fun p => !p.2.success)).foldl
      (fun acc p =>
        acc ++ ofStr "### " ++ p.1 ++ ofStr " **Error**: " ++
          renderOptStr p.2.error)
      []
  .ok (header ++ rows ++ failedPart)

/-- `print_deployment_summary(report)` (lines 556-583), returning the
printed lines.  It reads `summary['contract']`, then `summary['strategy']`
(line 564, a `KeyError` against the builder's `"deploymentStrategy"`),
then computes `successfulDeployments/totalNetworks*100` (line 565),
which raises `ZeroDivisionError` when the total is zero.  The `:.1f`
float formatting of the rate is not modelled; the rate is reported
exactly. -/
def print_deployment_summaryE (report : Report) : Except PyExn (List Str) := do
  let s := report.summary
  let contract ← dgetJ s (ofStr "contract")
  let strategy ← dgetJ s (ofStr "strategy")
  let succJ ← dgetJ s (ofStr "successfulDeployments")
  let totJ ← dgetJ s (ofStr "totalNetworks")
  let succ ← asNat succJ
  let tot ← asNat totJ
  let _rate ← pyDiv succ tot
  let successLines :=
    (report.networks.filter (fun p => p.2.success)).map
      (fun p => p.1 ++ ofStr ": " ++ renderOptStr p.2.contractAddress)
  let failedLines :=
    (report.networks.filter (fun p => !p.2.success)).map
      (fun p => p.1 ++ ofStr ": " ++ renderOptStr p.2.error)
  .ok ([ofStr "DEPLOYMENT SUMMARY",
        ofStr "Contract: " ++ renderJ contract,
        ofStr "Strategy: " ++ renderJ strategy,
        ofStr "Success Rate: " ++ ofStr (toString succ) ++ ofStr "/" ++
          ofStr (toString tot)] ++ successLines ++ failedLines)

/-- `generate_deployment_report(results, config)` (lines 463-509): build
the report dict, hand its JSON form to the persistence collaborator
(lines 493-494, always succeeds), then render the markdown file and
print the summary — both of which can raise. -/
def generate_deployment_reportE (results : List (Str × PyResult))
    (config : Config) (now : Str) : Except PyExn Report := do
  let report := buildReport results config now
  let _md ← generate_markdown_reportE report
  let _lines ← print_deployment_summaryE report
  .ok report

/-! ### Configuration building and job execution (lines 122-150 and
325-349) -/

/-- The per-network dict written at lines 139-146. -/
def defaultNetworkSettings : NetworkSettings :=
  { enabled := some true, priority := some 1, customGasPrice := none,
    customTimeout := some 300000, skipVerification := some false,
    dependencies := [] }

/-- The loop body of lines 137-148: a known chain is written into
`config["networks"]`, an unknown one only appends the printed warning. -/
def createStep (acc : Config × List Str) (chain : Str) : Config × List Str :=
  if decide (chain ∈ networkConfigKeys) then
    ({ acc.1 with networks := dinsert acc.1.networks chain defaultNetworkSettings },
     acc.2)
  else
    (acc.1, acc.2 ++ [ofStr "⚠️  Unknown network: " ++ chain])

/-- `create_deployment_config(chains, contract_name, constructor_args)`
(lines 122-150): known chains get the default per-network dict; an
unknown chain only produces the printed warning at line 148 and is
dropped.  Returns the configuration and the warnings.  No exception is
ever raised and no validation failure exists. -/
def create_deployment_config (chains : List Str) (contract : Str)
    (constructorArgs : List Str) (now : Str) : Config × List Str :=
  let base : Config :=
    { deployment :=
        { contract := contract, constructorArgs := constructorArgs,
          timestamp := now, strategy := ofStr "simultaneous",
          retryAttempts := 3, retryDelay := 5000,
          verificationEnabled := true, networks := none }
      networks := [] }
  chains.foldl createStep (base, [])

/-- The strategy dispatch of `execute_deployment` (lines 325-345):
filter the enabled targets, then invoke the matching engine routine;
an unrecognized strategy raises `ValueError`.  No validation of any
kind precedes the dispatch. -/
def engineResults (config : Config) (attempt : Attempt)
    (decision : Str → Bool) (simOrder ord1 ord2 : List Str) :
    Except PyExn (List (Str × PyResult)) :=
  let networks := enabledNetworks config
  if config.deployment.strategy = ofStr "simultaneous" then
    deploy_simultaneousE networks simOrder attempt
  else if config.deployment.strategy = ofStr "sequential" then
    .ok (deploy_sequential networks config attempt decision)
  else if config.deployment.strategy = ofStr "coordinated" then
    .ok (deploy_coordinated networks config ord1 ord2 attempt)
  else
    .error (.valueError
      (ofStr "Unknown deployment strategy: " ++ config.deployment.strategy))

/-- `execute_deployment(config)` (lines 325-349): run the strategy,
then generate the report, then return the results dict. -/
def execute_deploymentE (config : Config) (attempt : Attempt)
    (decision : Str → Bool) (simOrder ord1 ord2 : List Str) (now : Str) :
    Except PyExn (List (Str × PyResult)) := do
  let results ← engineResults config attempt decision simOrder ord1 ord2
  let _report ← generate_deployment_reportE results config now
  .ok results

/-- The report with its generation timestamp removed, used to state in
what sense aggregation is deterministic. -/
def eraseTs (r : Report) : Report :=
  { r with summary := r.summary.filter (fun p => decide (¬ p.1 = ofStr "timestamp")) }

/-! ### Helper lemmas -/

/-- Aggregation keeps the results dict's key sequence unchanged. -/
theorem buildReport_keys (results : List (Str × PyResult)) (config : Config)
    (now : Str) :
    (buildReport results config now).networks.map Prod.fst = results.map Prod.fst := by
  simp only [buildReport]
  rw [List.map_map]
  rfl

/-- The targets the sequential loop records form an initial segment of
the list it was given. -/
theorem seqLoop_fst (attempt : Attempt) (decision : Str → Bool) :
    ∀ l : List Str, ∃ t, (seqLoop attempt decision l).map Prod.fst ++ t = l := by
  intro l
  induction l with
  | nil => exact ⟨[], rfl⟩
  | cons n rest ih =>
    obtain ⟨t, ht⟩ := ih
    simp only [seqLoop]
    split
    · exact ⟨rest, rfl⟩
    · split
      · exact ⟨t, by simp [ht]⟩
      · split
        · exact ⟨t, by simp [ht]⟩
        · exact ⟨rest, rfl⟩

/-- With an always-continue continuation policy the sequential loop
attempts every target in order. -/
theorem seqLoop_all_true (attempt : Attempt) (decision : Str → Bool)
    (hd : ∀ x, decision x = true) :
    ∀ l : List Str, (seqLoop attempt decision l).map Prod.fst = l := by
  intro l
  induction l with
  | nil => rfl
  | cons n rest ih =>
    simp only [seqLoop]
    split
    · rename_i h
      rw [List.isEmpty_iff] at h
      rw [h]
      rfl
    · split
      · simp [ih]
      · rw [hd n]
        simp [ih]

/-- A line that either carries no marker, or carries one but contains no
address token, never sets the contract address. -/
theorem parseLine_none (acc : DeploymentInfo) (line : Str)
    (ha : acc.contractAddress = none)
    (h : markerB line = true → findTok 40 line = []) :
    (parseLine acc line).contractAddress = none := by
  unfold parseLine
  split
  · rename_i hm
    rw [h hm]
    exact ha
  · split
    · split
      · exact ha
      · simpa using ha
    · split
      · split
        · exact ha
        · simpa using ha
      · exact ha

/-- Folding the per-line chain over marker-token-free lines leaves the
contract address unset. -/
theorem parseFold_none (lines : List Str) :
    ∀ acc : DeploymentInfo, acc.contractAddress = none →
      (∀ line ∈ lines, markerB line = true → findTok 40 line = []) →
      ((lines.foldl parseLine acc).contractAddress = none) := by
  induction lines with
  | nil => intro acc ha _; exact ha
  | cons l rest ih =>
    intro acc ha hl
    simp only [List.foldl_cons]
    exact ih _ (parseLine_none acc l ha (hl l (by simp)))
      (fun x hx => hl x (by simp [hx]))

/-- The first occurrence of a present event lies inside the trace. -/
theorem firstIdx_lt (e : Ev) : ∀ tr : List Ev, e ∈ tr → firstIdx e tr < tr.length := by
  intro tr
  induction tr with
  | nil => intro h; cases h
  | cons x xs ih =>
    intro h
    simp only [firstIdx]
    split
    · simp
    · rename_i hx
      have : e ∈ xs := by
        cases h with
        | head => exact absurd rfl hx
        | tail _ h2 => exact h2
      simpa using ih this

/-- First index in an append, when the event occurs on the left. -/
theorem firstIdx_append_l (e : Ev) :
    ∀ l1 l2 : List Ev, e ∈ l1 → firstIdx e (l1 ++ l2) = firstIdx e l1 := by
  intro l1 l2
  induction l1 with
  | nil => intro h; cases h
  | cons x xs ih =>
    intro h
    simp only [List.cons_append, firstIdx]
    split
    · rfl
    · rename_i hx
      have hmem : e ∈ xs := by
        cases h with
        | head => exact absurd rfl hx
        | tail _ h2 => exact h2
      show firstIdx e (xs ++ l2) + 1 = firstIdx e xs + 1
      rw [ih hmem]

/-- First index in an append, when the event misses the left part. -/
theorem firstIdx_append_r (e : Ev) :
    ∀ l1 l2 : List Ev, ¬ e ∈ l1 →
      firstIdx e (l1 ++ l2) = l1.length + firstIdx e l2 := by
  intro l1 l2
  induction l1 with
  | nil => intro _; simp [firstIdx]
  | cons x xs ih =>
    intro h
    simp only [List.cons_append, firstIdx, List.length_cons]
    split
    · rename_i hx
      exact absurd (hx ▸ List.mem_cons_self x xs) h
    · show firstIdx e (xs ++ l2) + 1 = xs.length + 1 + firstIdx e l2
      rw [ih (fun hmem => h (List.mem_cons_of_mem x hmem))]
      omega

/-- Appending to an association list does not change lookups that
already succeed, and a fresh head key resolves in the appended part. -/
theorem dlookup_append_none {V : Type} (d2 : List (Str × V)) (k : Str) :
    ∀ d1 : List (Str × V), dlookup d1 k = none →
      dlookup (d1 ++ d2) k = dlookup d2 k := by
  intro d1
  induction d1 with
  | nil => intro _; rfl
  | cons p rest ih =>
    obtain ⟨k2, v⟩ := p
    intro h
    simp only [dlookup] at h
    rw [List.cons_append]
    simp only [dlookup]
    by_cases hk : k2 = k
    · rw [if_pos hk] at h
      exact Option.noConfusion h
    · rw [if_neg hk] at h
      rw [if_neg hk]
      exact ih h

/-- Inserting a fresh key into a Python dict appends it. -/
theorem dinsert_fresh {V : Type} (k : Str) (v : V) :
    ∀ d : List (Str × V), dlookup d k = none → dinsert d k v = d ++ [(k, v)] := by
  intro d
  induction d with
  | nil => intro _; rfl
  | cons p rest ih =>
    obtain ⟨k2, v2⟩ := p
    intro h
    simp only [dlookup] at h
    simp only [dinsert, List.cons_append]
    by_cases hk : k2 = k
    · rw [if_pos hk] at h
      exact Option.noConfusion h
    · rw [if_neg hk] at h
      rw [if_neg hk, ih h]

/-- Unfolded behavior of the `create_deployment_config` loop: on
duplicate-free chains whose keys are fresh for the accumulator, the
known chains are appended with default settings in order, the unknown
ones produce warnings in order, and the `deployment` section is kept. -/
theorem createFold (chains : List Str) :
    ∀ (cfg : Config) (ws : List Str), chains.Nodup →
      (∀ c ∈ chains, dlookup cfg.networks c = none) →
      (chains.foldl createStep (cfg, ws)).1.networks
          = cfg.networks ++ (chains.filter
              (fun c => decide (c ∈ networkConfigKeys))).map
              (fun c => (c, defaultNetworkSettings))
        ∧ (chains.foldl createStep (cfg, ws)).2
          = ws ++ (chains.filter
              (fun c => !(decide (c ∈ networkConfigKeys)))).map
              (fun c => ofStr "⚠️  Unknown network: " ++ c)
        ∧ (chains.foldl createStep (cfg, ws)).1.deployment = cfg.deployment := by
  induction chains with
  | nil => intro cfg ws _ _; simp
  | cons c rest ih =>
    intro cfg ws hnod hfresh
    have hcnotrest : ¬ c ∈ rest := (List.nodup_cons.mp hnod).1
    have hnodrest : rest.Nodup := (List.nodup_cons.mp hnod).2
    by_cases hc : c ∈ networkConfigKeys
    · have hstep : createStep (cfg, ws) c =
          ({ cfg with networks := cfg.networks ++ [(c, defaultNetworkSettings)] }, ws) := by
        simp only [createStep, hc, decide_eq_true_eq, if_pos]
        rw [dinsert_fresh c defaultNetworkSettings cfg.networks (hfresh c (List.mem_cons_self c rest))]
      have hfresh2 : ∀ x ∈ rest,
          dlookup (cfg.networks ++ [(c, defaultNetworkSettings)]) x = none := by
        intro x hx
        rw [dlookup_append_none _ _ _ (hfresh x (List.mem_cons_of_mem c hx))]
        have hxc : ¬ c = x := fun he => hcnotrest (he ▸ hx)
        simp [dlookup, hxc]
      obtain ⟨h1, h2, h3⟩ := ih ({ cfg with networks := cfg.networks ++ [(c, defaultNetworkSettings)] }) ws hnodrest hfresh2
      rw [List.foldl_cons, hstep]
      refine ⟨?_, ?_, ?_⟩
      · rw [h1]
        simp [List.filter_cons, hc]
      · rw [h2]
        simp [List.filter_cons, hc]
      · rw [h3]
    · have hstep : createStep (cfg, ws) c =
          (cfg, ws ++ [ofStr "⚠️  Unknown network: " ++ c]) := by
        simp [createStep, hc]
      obtain ⟨h1, h2, h3⟩ := ih cfg (ws ++ [ofStr "⚠️  Unknown network: " ++ c]) hnodrest
        (fun x hx => hfresh x (List.mem_cons_of_mem c hx))
      rw [List.foldl_cons, hstep]
      refine ⟨?_, ?_, ?_⟩
      · rw [h1]
        simp [List.filter_cons, hc]
      · rw [h2]
        simp [List.filter_cons, hc]
      · rw [h3]

/-! ### Concrete fixtures used by the witnesses and counterexamples -/

/-- A fixed generation time used by concrete runs. -/
def now0 : Str := ofStr "2025-01-01T00:00:00"

/-- Per-network settings with an explicit priority. -/
def prioSettings (p : Int) : NetworkSettings :=
  { defaultNetworkSettings with priority := some p }

/-- A deployment configuration with the given strategy and networks
(the shape `create_deployment_config` produces, with the strategy then
overridden the way `main` does for `--strategy`). -/
def mkCfg (strategy : String) (nets : List (Str × NetworkSettings)) : Config :=
  { deployment :=
      { contract := ofStr "Token", constructorArgs := [],
        timestamp := ofStr "2025-01-01T00:00:00",
        strategy := ofStr strategy, retryAttempts := 3, retryDelay := 5000,
        verificationEnabled := true, networks := none }
    networks := nets }

/-- The attempt oracle realized by `deploy_to_network` itself against a
collaborator that exits cleanly.  On every configuration built by
`create_deployment_config` (modelled by `mkCfg`) the body raises
`KeyError("networks")`, so each attempt is a failure record. -/
def attemptOf (cfg : Config) : Attempt := fun n =>
  deploy_to_network n cfg (.completed 0 [] []) (.completed 0 [] []) (ofStr "t")

/-- Sequential job over ethereum (priority 2) and polygon (priority 1). -/
def cfgSeq21 : Config :=
  mkCfg "sequential"
    [(ofStr "ethereum", prioSettings 2), (ofStr "polygon", prioSettings 1)]

/-- Sequential job over ethereum and polygon, both priority 1. -/
def cfgStop : Config :=
  mkCfg "sequential"
    [(ofStr "ethereum", prioSettings 1), (ofStr "polygon", prioSettings 1)]

/-! ### C1 -/

/-- C1 counterexample: sequential run over enabled targets
[ethereum, polygon] where ethereum's attempt fails and the continuation
decision says stop.  Polygon is enabled and never attempted, yet the
generated report has *no* entry for it at all — it is omitted, not
reported as skipped, so the caller receives a report that silently
drops a target it asked for. -/
theorem sequential_stop_omits_target :
    (ofStr "polygon") ∈ enabledNetworks cfgStop
    ∧ (attemptOf cfgStop (ofStr "ethereum")).success = false
    ∧ (deploy_sequential (enabledNetworks cfgStop) cfgStop (attemptOf cfgStop)
        (fun _ => false)).map Prod.fst = [ofStr "ethereum"]
    ∧ dlookup (buildReport
        (deploy_sequential (enabledNetworks cfgStop) cfgStop (attemptOf cfgStop)
          (fun _ => false))
        cfgStop now0).networks (ofStr "polygon") = none := by
  decide

/-- C1 (amended): under the sequential strategy no validation precedes
the run; the report contains entries for exactly the attempted targets,
in attempt order, and the attempted targets form an initial segment of
the priority-sorted enabled targets — after a stop decision the
remaining targets are never attempted and are omitted from the report
rather than reported as skipped. -/
theorem sequential_report_covers_attempted (networks : List Str) (config : Config)
    (attempt : Attempt) (decision : Str → Bool) (now : Str) :
    (buildReport (deploy_sequential networks config attempt decision) config
        now).networks.map Prod.fst
      = (deploy_sequential networks config attempt decision).map Prod.fst
    ∧ ∃ t, (deploy_sequential networks config attempt decision).map Prod.fst ++ t
      = sortByPriority config networks :=
  ⟨buildReport_keys _ _ _, seqLoop_fst _ _ _⟩

/-! ### C2 -/

/-- C2 counterexample: a sequential job configured as
[ethereum (priority 2), polygon (priority 1)].  The report's per-target
entries come out in attempt order [polygon, ethereum], not in the job's
configured target order [ethereum, polygon]. -/
theorem report_order_not_configured_order :
    enabledNetworks cfgSeq21 = [ofStr "ethereum", ofStr "polygon"]
    ∧ (buildReport
        (deploy_sequential (enabledNetworks cfgSeq21) cfgSeq21 (attemptOf cfgSeq21)
          (fun _ => true))
        cfgSeq21 now0).networks.map Prod.fst = [ofStr "polygon", ofStr "ethereum"]
    ∧ ¬ (buildReport
        (deploy_sequential (enabledNetworks cfgSeq21) cfgSeq21 (attemptOf cfgSeq21)
          (fun _ => true))
        cfgSeq21 now0).networks.map Prod.fst = enabledNetworks cfgSeq21 := by
  decide

/-- C2 (amended): the report's per-target entries are ordered by the
results dict's insertion order — the order in which attempts were
recorded (completion order under the simultaneous strategy, attempt
order otherwise) — not by the job's configured target order. -/
theorem report_order_is_insertion_order (results : List (Str × PyResult))
    (config : Config) (now : Str) (networks completionOrder : List Str)
    (attempt : Attempt) :
    (buildReport results config now).networks.map Prod.fst = results.map Prod.fst
    ∧ (deploy_simultaneous networks completionOrder attempt).map Prod.fst
        = completionOrder := by
  refine ⟨buildReport_keys _ _ _, ?_⟩
  simp only [deploy_simultaneous, List.map_map]
  exact List.map_id completionOrder

/-! ### C3 -/

/-- Raw chain list containing an unknown identifier. -/
def c3chains : List Str := [ofStr "badnet", ofStr "ethereum"]

/-- The configuration built from `c3chains`. -/
def c3cfg : Config := (create_deployment_config c3chains (ofStr "Token") [] now0).1

/-- C3 counterexample: a raw configuration referencing the unknown
identifier `badnet`.  The builder does not fail — it returns a
configuration (dropping `badnet` with only a printed warning) — and the
coordination engine is then invoked and attempts a deployment to the
remaining target.  No `ValidationError` exists anywhere on this path. -/
theorem unknown_target_not_rejected :
    (create_deployment_config c3chains (ofStr "Token") [] now0).2
        = [ofStr "⚠️  Unknown network: badnet"]
    ∧ c3cfg.networks.map Prod.fst = [ofStr "ethereum"]
    ∧ (engineResults c3cfg (attemptOf c3cfg) (fun _ => true)
        [ofStr "ethereum"] [] []).map (fun rs => rs.map Prod.fst)
      = Except.ok [ofStr "ethereum"] := by
  decide

/-- C3 (amended): the builder performs no validation and never raises:
for duplicate-free raw chain lists it returns a configuration whose
target dict holds exactly the known chains with default settings (in
order), one printed warning per unknown chain, and the default
`simultaneous` strategy; the engine is then invoked on whatever target
set remains, even an empty one. -/
theorem builder_drops_unknown_targets (chains : List Str) (contract : Str)
    (args : List Str) (now : Str) (hnod : chains.Nodup) :
    (create_deployment_config chains contract args now).1.networks
      = (chains.filter (fun c => decide (c ∈ networkConfigKeys))).map
          (fun c => (c, defaultNetworkSettings))
    ∧ (create_deployment_config chains contract args now).2
      = (chains.filter (fun c => !(decide (c ∈ networkConfigKeys)))).map
          (fun c => ofStr "⚠️  Unknown network: " ++ c)
    ∧ (create_deployment_config chains contract args now).1.deployment.strategy
      = ofStr "simultaneous" := by
  obtain ⟨h1, h2, h3⟩ := createFold chains
    ({ deployment :=
        { contract := contract, constructorArgs := args,
          timestamp := now, strategy := ofStr "simultaneous",
          retryAttempts := 3, retryDelay := 5000,
          verificationEnabled := true, networks := none }
       networks := [] }) [] hnod (fun _ _ => rfl)
  refine ⟨?_, ?_, ?_⟩
  · rw [show (create_deployment_config chains contract args now).1.networks
        = (chains.foldl createStep
            ({ deployment :=
                { contract := contract, constructorArgs := args,
                  timestamp := now, strategy := ofStr "simultaneous",
                  retryAttempts := 3, retryDelay := 5000,
                  verificationEnabled := true, networks := none }
               networks := [] }, [])).1.networks from rfl, h1]
    rfl
  · exact h2
  · rw [show (create_deployment_config chains contract args now).1.deployment
        = (chains.foldl createStep
            ({ deployment :=
                { contract := contract, constructorArgs := args,
                  timestamp := now, strategy := ofStr "simultaneous",
                  retryAttempts := 3, retryDelay := 5000,
                  verificationEnabled := true, networks := none }
               networks := [] }, [])).1.deployment from rfl, h3]

/-- Witness for the amended C3 statement at a concrete input. -/
theorem builder_drops_unknown_targets_witness :
    (create_deployment_config [ofStr "mumbai", ofStr "nonet"] (ofStr "C") []
        (ofStr "t")).1.networks
      = ([ofStr "mumbai", ofStr "nonet"].filter
          (fun c => decide (c ∈ networkConfigKeys))).map
          (fun c => (c, defaultNetworkSettings))
    ∧ (create_deployment_config [ofStr "mumbai", ofStr "nonet"] (ofStr "C") []
        (ofStr "t")).2
      = ([ofStr "mumbai", ofStr "nonet"].filter
          (fun c => !(decide (c ∈ networkConfigKeys)))).map
          (fun c => ofStr "⚠️  Unknown network: " ++ c)
    ∧ (create_deployment_config [ofStr "mumbai", ofStr "nonet"] (ofStr "C") []
        (ofStr "t")).1.deployment.strategy = ofStr "simultaneous" :=
  builder_drops_unknown_targets [ofStr "mumbai", ofStr "nonet"] (ofStr "C") []
    (ofStr "t") (by decide)

/-! ### C4 -/

/-- C4: every exception raised inside `deploy_to_network`'s body — the
registry lookup, the settings lookup, and the collaborator call with its
timeout — is caught and converted into a terminal failure record: the
result has `success = false`, carries the target's name, and its error
field is `"Deployment timed out"` for a timeout and `str(e)` otherwise.
No exception propagates to the caller (the function is total into
`PyResult`). -/
theorem deploy_to_network_catches_exceptions (network : Str) (config : Config)
    (collab : CollabOutcome) (vcollab : CollabOutcome) (now : Str) (e : PyExn)
    (h : deployBody network config collab vcollab now = .error e) :
    (deploy_to_network network config collab vcollab now).success = false
    ∧ (deploy_to_network network config collab vcollab now).network = network
    ∧ deploy_to_network network config collab vcollab now
      = (if e = .timeoutExpired then
          { success := false, network := network,
            error := some (ofStr "Deployment timed out") }
         else
          { success := false, network := network,
            error := some (pyStrOfExn e) }) := by
  unfold deploy_to_network
  rw [h]
  cases e <;> exact ⟨rfl, rfl, rfl⟩

/-- A configuration whose `deployment` section does carry a `networks`
key, so that the collaborator call itself is reached. -/
def cfgWithDeployNetworks : Config :=
  { cfgStop with
    deployment :=
      { cfgStop.deployment with
        networks := some [(ofStr "ethereum", defaultNetworkSettings)] } }

/-- Witness for C4 at a concrete input: the collaborator times out and
`deploy_to_network` returns the timed-out failure record. -/
theorem deploy_to_network_catches_exceptions_witness :
    (deploy_to_network (ofStr "ethereum") cfgWithDeployNetworks .timedOut
        (.completed 0 [] []) (ofStr "t")).success = false
    ∧ (deploy_to_network (ofStr "ethereum") cfgWithDeployNetworks .timedOut
        (.completed 0 [] []) (ofStr "t")).network = ofStr "ethereum"
    ∧ deploy_to_network (ofStr "ethereum") cfgWithDeployNetworks .timedOut
        (.completed 0 [] []) (ofStr "t")
      = (if (PyExn.timeoutExpired : PyExn) = .timeoutExpired then
          { success := false, network := ofStr "ethereum",
            error := some (ofStr "Deployment timed out") }
         else
          { success := false, network := ofStr "ethereum",
            error := some (pyStrOfExn .timeoutExpired) }) :=
  deploy_to_network_catches_exceptions (ofStr "ethereum") cfgWithDeployNetworks
    .timedOut (.completed 0 [] []) (ofStr "t") .timeoutExpired (by decide)

/-! ### C5 -/

/-- A 42-character address token of `a`-digits. -/
def addrA : Str := ofStr "0xaaaaaaaaaaaaaaaaaaaaaaaaaaaaaaaaaaaaaaaa"

/-- A 42-character address token of `b`-digits. -/
def addrB : Str := ofStr "0xbbbbbbbbbbbbbbbbbbbbbbbbbbbbbbbbbbbbbbbb"

/-- Output with a marker line holding `addrA` and a later marker-free
line holding `addrB`: the last address token in the output is `addrB`. -/
def outAB : Str :=
  ofStr "deployed to: 0xaaaaaaaaaaaaaaaaaaaaaaaaaaaaaaaaaaaaaaaa\nnote 0xbbbbbbbbbbbbbbbbbbbbbbbbbbbbbbbbbbbbbbbb"

/-- C5 counterexample: the output holds two address tokens and ends in
`addrB`, yet the parser records `addrA` — the *first* token of the
marker line — because the last-token fallback at lines 274-279 only
runs when no `Contract address:`/`deployed to:` line yielded an
address. -/
theorem parser_takes_marker_line_first_token :
    (findTok 40 outAB).length = 2
    ∧ (findTok 40 outAB).getLast? = some addrB
    ∧ (parse_deployment_output outAB (ofStr "ethereum")).contractAddress = some addrA
    ∧ ¬ addrA = addrB := by
  decide

/-- C5 (amended): the *last* address token of the output is recorded
only on the fallback path — when no line carrying a deployment marker
contains an address token; a marker line with tokens instead contributes
its first token (last such line winning), as the counterexample shows. -/
theorem parser_fallback_takes_last_token (output _network : Str)
    (h : ∀ line ∈ splitNl output, markerB line = true → findTok 40 line = []) :
    (parse_deployment_output output _network).contractAddress
      = (findTok 40 output).getLast? := by
  have hnone := parseFold_none (splitNl output) {} rfl h
  have hgen : ∀ info : DeploymentInfo, info.contractAddress = none →
      (match info.contractAddress with
       | some _ => info
       | none =>
         match (findTok 40 output).getLast? with
         | some a => { info with contractAddress := some a }
         | none => info).contractAddress = (findTok 40 output).getLast? := by
    intro info hi
    rw [hi]
    cases hl : (findTok 40 output).getLast? with
    | none => simpa [hl] using hi
    | some a => simp [hl]
  exact hgen _ hnone

/-- Marker-free output whose last address token is `addrB`. -/
def outNoMarker : Str :=
  ofStr "tx 0xaaaaaaaaaaaaaaaaaaaaaaaaaaaaaaaaaaaaaaaa sent\nfinal 0xbbbbbbbbbbbbbbbbbbbbbbbbbbbbbbbbbbbbbbbb"

/-- Witness for the amended C5 statement at a concrete input. -/
theorem parser_fallback_takes_last_token_witness :
    (parse_deployment_output outNoMarker (ofStr "polygon")).contractAddress
        = (findTok 40 outNoMarker).getLast?
    ∧ (findTok 40 outNoMarker).getLast? = some addrB :=
  ⟨parser_fallback_takes_last_token outNoMarker (ofStr "polygon") (by decide),
   by decide⟩

/-! ### C6 -/

/-- Coordinated job with priorities 2 and 3 — neither is 1, so the code
puts both in the single phase-3 bucket. -/
def cfgCoord23 : Config :=
  mkCfg "coordinated"
    [(ofStr "ethereum", prioSettings 2), (ofStr "polygon", prioSettings 3)]

/-- C6 counterexample: targets with distinct priorities 2 < 3.  The
claim puts them in distinct ascending buckets, with polygon not
dispatched until ethereum is terminal; the code instead groups every
non-priority-1 target into one simultaneous phase, so polygon is
dispatched *before* ethereum reaches a terminal status. -/
theorem coordinated_buckets_not_by_priority :
    effPriority cfgCoord23 (ofStr "ethereum") < effPriority cfgCoord23 (ofStr "polygon")
    ∧ coordTrace (enabledNetworks cfgCoord23) cfgCoord23 []
        [ofStr "ethereum", ofStr "polygon"]
      = [.dispatch (ofStr "ethereum"), .dispatch (ofStr "polygon"),
         .terminal (ofStr "ethereum"), .terminal (ofStr "polygon")]
    ∧ ¬ BeforeIn (.terminal (ofStr "ethereum")) (.dispatch (ofStr "polygon"))
        (coordTrace (enabledNetworks cfgCoord23) cfgCoord23 []
          [ofStr "ethereum", ofStr "polygon"])
    ∧ BeforeIn (.dispatch (ofStr "polygon")) (.terminal (ofStr "ethereum"))
        (coordTrace (enabledNetworks cfgCoord23) cfgCoord23 []
          [ofStr "ethereum", ofStr "polygon"]) := by
  decide

/-- C6 (amended): the coordinated strategy forms exactly *two* buckets —
the targets of priority 1, then all remaining targets together — each
run with the simultaneous algorithm; no target of the second bucket is
dispatched before every target of the first bucket is terminal. -/
theorem coordinated_two_phase_barrier (networks : List Str) (config : Config)
    (ord1 ord2 : List Str) (m n : Str)
    (h1 : ord1.Perm (coordBucket1 networks config))
    (hm : m ∈ ord1) (hn : n ∈ coordRemaining networks config) :
    BeforeIn (.terminal m) (.dispatch n) (coordTrace networks config ord1 ord2) := by
  have hmb : m ∈ coordBucket1 networks config := h1.mem_iff.mp hm
  have hb1 : (coordBucket1 networks config).isEmpty = false := by
    cases hcb : coordBucket1 networks config with
    | nil => rw [hcb] at hmb; cases hmb
    | cons a l => rfl
  have hrem : (coordRemaining networks config).isEmpty = false := by
    cases hcr : coordRemaining networks config with
    | nil => rw [hcr] at hn; cases hn
    | cons a l => rfl
  have hnot1 : ¬ n ∈ coordBucket1 networks config := by
    have hf := (List.mem_filter.mp hn).2
    intro hmem
    simp only [Bool.not_eq_eq_eq_not, Bool.not_true, decide_eq_false_iff_not] at hf
    exact hf hmem
  have htr : coordTrace networks config ord1 ord2
      = simTrace (coordBucket1 networks config) ord1
        ++ simTrace (coordRemaining networks config) ord2 := by
    simp [coordTrace, hb1, hrem]
  rw [htr]
  have htm_in : (Ev.terminal m) ∈ simTrace (coordBucket1 networks config) ord1 :=
    List.mem_append_right _ (List.mem_map_of_mem Ev.terminal hm)
  have hdn_notin : ¬ (Ev.dispatch n) ∈ simTrace (coordBucket1 networks config) ord1 := by
    intro hmem
    rcases List.mem_append.mp hmem with hin | hin
    · rcases List.mem_map.mp hin with ⟨a, ha, hae⟩
      cases hae
      exact hnot1 ha
    · rcases List.mem_map.mp hin with ⟨a, _, hae⟩
      exact Ev.noConfusion hae
  have hdn_in2 : (Ev.dispatch n) ∈ simTrace (coordRemaining networks config) ord2 :=
    List.mem_append_left _ (List.mem_map_of_mem Ev.dispatch hn)
  refine ⟨List.mem_append_left _ htm_in, List.mem_append_right _ hdn_in2, ?_⟩
  rw [firstIdx_append_l _ _ _ htm_in, firstIdx_append_r _ _ _ hdn_notin]
  have hlt := firstIdx_lt (Ev.terminal m) _ htm_in
  omega

/-- Coordinated job with priorities 1 and 2, used as a concrete barrier
witness. -/
def cfgCoord12 : Config :=
  mkCfg "coordinated"
    [(ofStr "ethereum", prioSettings 1), (ofStr "polygon", prioSettings 2)]

/-- Witness for the amended C6 statement at a concrete input. -/
theorem coordinated_two_phase_barrier_witness :
    BeforeIn (.terminal (ofStr "ethereum")) (.dispatch (ofStr "polygon"))
      (coordTrace (enabledNetworks cfgCoord12) cfgCoord12 [ofStr "ethereum"]
        [ofStr "polygon"]) :=
  coordinated_two_phase_barrier (enabledNetworks cfgCoord12) cfgCoord12
    [ofStr "ethereum"] [ofStr "polygon"] (ofStr "ethereum") (ofStr "polygon")
    (by decide) (by decide) (by decide)

/-! ### C7 -/

/-- C7: sequential deployment attempts targets one at a time following
the stable ascending-priority sort of the enabled targets: the attempt
sequence is an initial segment of that sort (the whole sort when the
continuation policy always continues), it is ordered by ascending
priority, and targets of equal priority keep their configured relative
order. -/
theorem sequential_priority_order_stable (networks : List Str) (config : Config)
    (attempt : Attempt) (decision : Str → Bool) :
    (∃ t, (deploy_sequential networks config attempt decision).map Prod.fst ++ t
        = sortByPriority config networks)
    ∧ List.Pairwise (priorityLe config)
        ((deploy_sequential networks config attempt decision).map Prod.fst)
    ∧ (∀ a b : Str, effPriority config a = effPriority config b →
        [a, b] <+ networks → [a, b] <+ sortByPriority config networks)
    ∧ ((∀ x, decision x = true) →
        (deploy_sequential networks config attempt decision).map Prod.fst
          = sortByPriority config networks) := by
  refine ⟨seqLoop_fst _ _ _, ?_, ?_, ?_⟩
  · obtain ⟨t, ht⟩ := seqLoop_fst attempt decision (sortByPriority config networks)
    have hsort : List.Pairwise (priorityLe config) (sortByPriority config networks) :=
      List.sorted_insertionSort (priorityLe config) networks
    have hsub : (deploy_sequential networks config attempt decision).map Prod.fst
        <+ sortByPriority config networks := by
      rw [← ht]
      exact List.sublist_append_left _ _
    exact hsort.sublist hsub
  · intro a b hab hsub
    exact List.pair_sublist_insertionSort (le_of_eq hab) hsub
  · intro hd
    exact seqLoop_all_true attempt decision hd (sortByPriority config networks)

/-- Sequential job with equal priorities, for the C7 witness. -/
def cfgTie : Config :=
  mkCfg "sequential"
    [(ofStr "ethereum", prioSettings 3), (ofStr "polygon", prioSettings 3)]

/-- Witness for C7 at a concrete input: equal-priority targets keep
their configured order, and with an always-continue policy the attempt
sequence is exactly the sorted target list. -/
theorem sequential_priority_order_stable_witness :
    ([ofStr "ethereum", ofStr "polygon"] <+ sortByPriority cfgTie (enabledNetworks cfgTie))
    ∧ (deploy_sequential (enabledNetworks cfgTie) cfgTie (attemptOf cfgTie)
        (fun _ => true)).map Prod.fst = sortByPriority cfgTie (enabledNetworks cfgTie) := by
  obtain ⟨-, -, h3, h4⟩ :=
    sequential_priority_order_stable (enabledNetworks cfgTie) cfgTie
      (attemptOf cfgTie) (fun _ => true)
  exact ⟨h3 (ofStr "ethereum") (ofStr "polygon") (by decide)
      (List.Sublist.refl _), h4 (fun _ => rfl)⟩

/-! ### C8 -/

/-- C8 counterexample: two aggregations of the *same* (empty is
allowed) terminal attempt set in the same configured order, performed at
different times, produce different reports — the generation timestamp at
line 475 is part of the report, so re-aggregation is not
byte-identical. -/
theorem reaggregation_not_identical :
    ¬ buildReport [] cfgSeq21 (ofStr "2025-01-01T00:00:00")
      = buildReport [] cfgSeq21 (ofStr "2025-01-02T00:00:00") := by
  decide

/-- C8 (amended): aggregation is pure and deterministic *given the
generation time*: reports built from identical attempt sets in identical
configured order differ at most in the summary's timestamp field —
erasing it yields identical reports for any two generation times. -/
theorem aggregation_deterministic_up_to_timestamp
    (results : List (Str × PyResult)) (config : Config) (t1 t2 : Str) :
    eraseTs (buildReport results config t1) = eraseTs (buildReport results config t2) := rfl

/-! ### C9 -/

/-- Sequential job with an empty target set. -/
def cfgEmpty : Config := mkCfg "sequential" []

/-- C9: at total count 0 the code does not report the percentage as
"not applicable" — it crashes.  Summary printing (and markdown
rendering) fail at the `summary['strategy']` lookup (lines 520/564; the
builder stored `"deploymentStrategy"`), so the whole
`execute_deployment` raises; and the success-rate expression of
line 565, evaluated on a zero-total summary, raises `ZeroDivisionError`.
This contradicts the claim, which describes the evident intent. -/
theorem zero_total_crashes_report :
    enabledNetworks cfgEmpty = []
    ∧ dlookup (buildReport [] cfgEmpty now0).summary (ofStr "totalNetworks")
        = some (.nat 0)
    ∧ print_deployment_summaryE (buildReport [] cfgEmpty now0)
        = .error (.keyError (ofStr "strategy"))
    ∧ generate_markdown_reportE (buildReport [] cfgEmpty now0)
        = .error (.keyError (ofStr "strategy"))
    ∧ pyDiv 0 0 = .error .zeroDivisionError
    ∧ execute_deploymentE cfgEmpty (attemptOf cfgEmpty) (fun _ => true) [] [] [] now0
        = .error (.keyError (ofStr "strategy")) := by
  decide

/-! ### C10 -/

/-- C10: every per-target entry of a generated report stores at most the
first 1000 characters of that attempt's raw output: the stored output
is exactly `take 1000` of the attempt's output (empty when absent), a
prefix of it, of length at most 1000. -/
theorem report_output_truncated (results : List (Str × PyResult)) (config : Config)
    (now : Str) (n : Str) (e : NetworkReportEntry)
    (h : (n, e) ∈ (buildReport results config now).networks) :
    e.output.length ≤ 1000
    ∧ ∃ r : PyResult, (n, r) ∈ results
        ∧ e.output = (r.output.getD []).take 1000
        ∧ ∃ t, e.output ++ t = r.output.getD [] := by
  simp only [buildReport] at h
  rcases List.mem_map.mp h with ⟨p, hp, hpe⟩
  have hn : p.1 = n := congrArg Prod.fst hpe
  have he : buildEntry p.2 = e := congrArg Prod.snd hpe
  subst hn
  subst he
  refine ⟨?_, p.2, ?_, rfl, ?_⟩
  · exact List.length_take_le 1000 _
  · simpa using hp
  · exact ⟨(p.2.output.getD []).drop 1000, List.take_append_drop _ _⟩

/-- A failed attempt record with a short raw output. -/
def rShort : PyResult :=
  { success := false, network := ofStr "ethereum",
    error := some (ofStr "boom"), output := some (ofStr "abcdef") }

/-- Witness for C10 at a concrete input. -/
theorem report_output_truncated_witness :
    (buildEntry rShort).output.length ≤ 1000
    ∧ ∃ r : PyResult, (ofStr "ethereum", r) ∈ [(ofStr "ethereum", rShort)]
        ∧ (buildEntry rShort).output = (r.output.getD []).take 1000
        ∧ ∃ t, (buildEntry rShort).output ++ t = r.output.getD [] :=
  report_output_truncated [(ofStr "ethereum", rShort)] cfgSeq21 now0
    (ofStr "ethereum") (buildEntry rShort) (by decide)

end MCD
